import Mathlib

/-!
# Panopticon: log-record formatting and file routing, verified

A shallow embedding of `run.py` of the `panopticon` Discord logger: the
filename sanitizer (`clean_filename`), the path router (`make_filename`),
the record formatter (`make_message`), the append-only writer (`write`),
and the event dispatcher (`handle_message`, the registered
`on_message_edit` listeners and `on_raw_message_edit`).

Dates and times are modelled as plain calendar records (the code only ever
formats them with `strftime`); the operating-system localtime conversion
(`datetime.astimezone(tz=None)`) is an environment parameter, as are the
wall-clock readings `datetime.now()` / `datetime.utcnow()` and the
`time.daylight` flag.  The filesystem is modelled as a map from path
strings to file contents; `os.makedirs` has no observable effect in this
model beyond the file map itself.
-/

namespace Panopticon

/-- A naive `datetime.datetime` as the code uses it: a calendar date plus a
time of day.  Discord hands the bot naive datetimes denoting UTC instants. -/
structure DateTime where
  year : Nat
  month : Nat
  day : Nat
  hour : Nat
  minute : Nat
  second : Nat
deriving DecidableEq

/-- Zero-pad a numeral to two digits, as `strftime` does for `%m`, `%d`,
`%H`, `%M`, `%S` and `%y` (all their values are below 100). -/
def pad2 (n : Nat) : String :=
  if n < 10 then "0" ++ toString n else toString n

/-- `strftime('%F')` = `%Y-%m-%d`: the ISO-like calendar date. -/
def fmtDateF (t : DateTime) : String :=
  toString t.year ++ "-" ++ pad2 t.month ++ "-" ++ pad2 t.day

/-- `strftime('%H:%M:%S')`: the zero-padded 24-hour clock reading. -/
def fmtClock (t : DateTime) : String :=
  pad2 t.hour ++ ":" ++ pad2 t.minute ++ ":" ++ pad2 t.second

/-- `strftime('%Y-%m-%D')`, the format string the writer actually passes:
`%D` is the American short date `%m/%d/%y`, so the rendered text is
`<year>-<month>-<month>/<day>/<2-digit year>`. -/
def fmtSessionDate (t : DateTime) : String :=
  toString t.year ++ "-" ++ pad2 t.month ++ "-" ++
    pad2 t.month ++ "/" ++ pad2 t.day ++ "/" ++ pad2 (t.year % 100)

/-- The character class of `re.sub(r'[/\\:*?"<>|\x00-\x1f]', '', string)`:
the nine filesystem-reserved punctuation characters and the ASCII control
range `0x00`–`0x1f`. -/
def isForbiddenChar (c : Char) : Bool :=
  c = '/' || c = '\\' || c = ':' || c = '*' || c = '?' ||
  c = '"' || c = '<' || c = '>' || c = '|' || c.toNat < 32

/-- `clean_filename` from `run.py`: delete every character of the forbidden
class (an `re.sub` with empty replacement keeps exactly the non-matching
characters, in order). -/
def clean_filename (s : String) : String :=
  String.mk (s.data.filter (fun c => !(isForbiddenChar c)))

/-- `int.to_bytes(k, byteorder='little')`: the `k` little-endian base-256
digits of a natural number. -/
def toBytesLE : Nat → Nat → List Nat
  | 0, _ => []
  | k + 1, n => n % 256 :: toBytesLE k (n / 256)

/-- Read little-endian base-256 digits back as a natural number
(`int.from_bytes(b, byteorder='little')`). -/
def fromBytesLE : List Nat → Nat
  | [] => 0
  | b :: rest => b + 256 * fromBytesLE rest

/-- The standard (non-URL-safe) base64 alphabet, as used by
`base64.b64encode`. -/
def b64chars : List Char :=
  "ABCDEFGHIJKLMNOPQRSTUVWXYZabcdefghijklmnopqrstuvwxyz0123456789+/".data

/-- The alphabet character of a six-bit group.  The fallback is never
reached: every index passed in is below 64. -/
def encodeSextet (n : Nat) : Char :=
  b64chars.getD n '#'

/-- `base64.b64encode` on a byte list: emit four alphabet characters per
three input bytes, with `=` padding for a trailing group of one or two
bytes (RFC 4648 §4, standard alphabet). -/
def b64encodeList : List Nat → List Char
  | [] => []
  | [b0] =>
      [encodeSextet (b0 / 4), encodeSextet (b0 % 4 * 16), '=', '=']
  | [b0, b1] =>
      [encodeSextet (b0 / 4), encodeSextet (b0 % 4 * 16 + b1 / 16),
       encodeSextet (b1 % 16 * 4), '=']
  | b0 :: b1 :: b2 :: rest =>
      encodeSextet (b0 / 4) :: encodeSextet (b0 % 4 * 16 + b1 / 16) ::
      encodeSextet (b1 % 16 * 4 + b2 / 64) :: encodeSextet (b2 % 64) ::
      b64encodeList rest

/-- The six-bit value of an alphabet character (`none` for `=` and any
other non-alphabet character). -/
def decodeChar (c : Char) : Option Nat :=
  b64chars.findIdx? (fun x => x == c)

/-- Modelled from the spec: `decode_base64`, the standard base64 decoding
direction of the round-trip property (the Python side calls
`base64.b64decode`, which is not part of `run.py`).  Four characters at a
time are mapped back through the alphabet; a group padded with one `=`
yields two bytes and a group padded with two `=` yields one byte, and
padding is only accepted in the final group. -/
def b64decodeList : List Char → Option (List Nat)
  | [] => some []
  | c1 :: c2 :: c3 :: c4 :: rest =>
      (match decodeChar c1, decodeChar c2, decodeChar c3, decodeChar c4, rest with
       | some s1, some s2, some s3, some s4, r =>
           (b64decodeList r).map
             (fun tail => (s1 * 4 + s2 / 16) :: (s2 % 16 * 16 + s3 / 4) ::
               (s3 % 4 * 64 + s4) :: tail)
       | some s1, some s2, some s3, none, [] =>
           some [s1 * 4 + s2 / 16, s2 % 16 * 16 + s3 / 4]
       | some s1, some s2, none, none, [] =>
           some [s1 * 4 + s2 / 16]
       | _, _, _, _, _ => none)
  | _ => none

/-- A guild (server): display name and numeric id. -/
structure Guild where
  name : String
  id : Nat
deriving DecidableEq

/-- The conversation container of a message, one constructor per
`isinstance` branch of `make_filename`: a guild text channel, a direct
message, a group chat, or any other channel kind (matched by no branch). -/
inductive Channel where
  | text (guild : Guild) (name : String) (id : Nat)
  | dm (id : Nat)
  | group (name : String) (id : Nat)
  | other (id : Nat)
deriving DecidableEq

/-- `message.guild`: present exactly for guild text channels. -/
def Channel.guildOf : Channel → Option Guild
  | .text g _ _ => some g
  | _ => none

/-- `channel.id`. -/
def Channel.chanId : Channel → Nat
  | .text _ _ i => i
  | .dm i => i
  | .group _ i => i
  | .other i => i

/-- A message author: display name, discriminator and numeric id. -/
structure Author where
  name : String
  discriminator : String
  id : Nat
deriving DecidableEq

/-- An attachment descriptor; the formatter only reads its URL. -/
structure Attachment where
  url : String
deriving DecidableEq

/-- A `discord.Message` as the core reads it. -/
structure Message where
  id : Nat
  created_at : DateTime
  edited_at : Option DateTime
  author : Author
  channel : Channel
  clean_content : String
  attachments : List Attachment
deriving DecidableEq

/-- The static configuration and environment: `LOG_DIR`, `USE_LOCALTIME`,
`IGNORE_SERVERS`, the OS localtime conversion used by
`astimezone(tz=None)`, the wall-clock readings `datetime.now()` /
`datetime.utcnow()` taken at write time, and the `time.daylight` flag. -/
structure Config where
  logDir : String
  useLocaltime : Bool
  toLocal : DateTime → DateTime
  ignoreServers : List Nat
  now : DateTime
  utcnow : DateTime
  daylight : Bool

/-- `make_filename` from `run.py`: pick the edit timestamp when present,
else the creation timestamp, format it with `strftime('%F')` (no timezone
conversion happens here), and build the path by channel kind.  The
`if`/`elif` chain has no `else`, so an unmatched channel kind falls
through and the function returns `None`. -/
def make_filename (cfg : Config) (m : Message) : Option String :=
  let t := match m.edited_at with
    | some e => e
    | none => m.created_at
  let timestamp := fmtDateF t
  match m.channel with
  | .text g cname cid =>
      some (cfg.logDir ++ "/" ++ clean_filename g.name ++ "-" ++ toString g.id ++
        "/#" ++ clean_filename cname ++ "-" ++ toString cid ++
        "/" ++ timestamp ++ ".log")
  | .dm _ =>
      some (cfg.logDir ++ "/DM/" ++ clean_filename m.author.name ++ "-" ++
        toString m.author.id ++ "/" ++ timestamp ++ ".log")
  | .group gname gid =>
      some (cfg.logDir ++ "/DM/" ++ clean_filename gname ++ "-" ++
        toString gid ++ "/" ++ timestamp ++ ".log")
  | .other _ => none

/-- The router as §4.2 of the spec words it: identical to `make_filename`
except that the effective timestamp is put through the process-wide
localtime-vs-UTC policy before the date is taken.  Kept separate so the
two can be compared. -/
def make_filename_specpolicy (cfg : Config) (m : Message) : Option String :=
  let t := match m.edited_at with
    | some e => e
    | none => m.created_at
  let t := if cfg.useLocaltime then cfg.toLocal t else t
  let timestamp := fmtDateF t
  match m.channel with
  | .text g cname cid =>
      some (cfg.logDir ++ "/" ++ clean_filename g.name ++ "-" ++ toString g.id ++
        "/#" ++ clean_filename cname ++ "-" ++ toString cid ++
        "/" ++ timestamp ++ ".log")
  | .dm _ =>
      some (cfg.logDir ++ "/DM/" ++ clean_filename m.author.name ++ "-" ++
        toString m.author.id ++ "/" ++ timestamp ++ ".log")
  | .group gname gid =>
      some (cfg.logDir ++ "/DM/" ++ clean_filename gname ++ "-" ++
        toString gid ++ "/" ++ timestamp ++ ".log")
  | .other _ => none

/-- `str.replace('\n', '\n(newline) ')` on the character list: every
newline is kept and followed by the marker text `(newline) `. -/
def replaceNl : List Char → List Char
  | [] => []
  | c :: rest =>
      if c = '\n' then '\n' :: "(newline) ".data ++ replaceNl rest
      else c :: replaceNl rest

/-- `make_message` from `run.py`: `[`, optional `E:`, the base64 of the
8-byte little-endian message id, `]`, the `[%H:%M:%S]` clock of the
effective time (localtime-converted when `USE_LOCALTIME` is set), the
author as `<name#discriminator>`, the newline-escaped clean content, and
one `\n(attach) <url>` per attachment, all joined by single spaces via
`'{} {} {} {} {}'.format(...)`. -/
def make_message (cfg : Config) (m : Message) : String :=
  let message_id := (match m.edited_at with
    | some _ => "[E:"
    | none => "[") ++
    String.mk (b64encodeList (toBytesLE 8 m.id)) ++ "]"
  let t := match m.edited_at with
    | some e => e
    | none => m.created_at
  let t := if cfg.useLocaltime then cfg.toLocal t else t
  let timestamp := "[" ++ fmtClock t ++ "]"
  let author := "<" ++ m.author.name ++ "#" ++ m.author.discriminator ++ ">"
  let content := String.mk (replaceNl m.clean_content.data)
  let attachments := m.attachments.foldl
    (fun acc a => acc ++ "\n(attach) " ++ a.url) ""
  message_id ++ " " ++ timestamp ++ " " ++ author ++ " " ++ content ++ " " ++
    attachments

/-- The filesystem: a map from path strings to file contents.  `none`
means the path does not exist. -/
abbrev FS := String → Option String

/-- The empty filesystem. -/
def emptyFS : FS := fun _ => none

/-- The session-start line: `'Session start: {} {}:00\n'` with the
wall clock read by `datetime.now()` under `USE_LOCALTIME` (else
`datetime.utcnow()`) formatted with `strftime('%Y-%m-%D')`, and hour
`11` when `time.daylight` is set, else `10`. -/
def sessionLine (cfg : Config) : String :=
  "Session start: " ++
    fmtSessionDate (if cfg.useLocaltime then cfg.now else cfg.utcnow) ++
    " " ++ (if cfg.daylight then "11" else "10") ++ ":00\n"

/-- `write` from `run.py`: create parent directories, test whether the
file exists, open it for appending, emit the session-start line when the
file is new, then append the data line plus a newline. -/
def write (cfg : Config) (filename : String) (s : String) (fs : FS) : FS :=
  let base := match fs filename with
    | some c => c
    | none => sessionLine cfg
  fun p => if p = filename then some (base ++ s ++ "\n") else fs p

/-- What a handler invocation can raise.  `typeError` models the Python
`TypeError` raised by `os.path.dirname(None)` when `make_filename`
returned `None`; `unsupportedConversationKind` is the error name §7 of
the spec assigns to an unroutable conversation — the code never produces
it, which claim C4 is about.  An `error` outcome models an exception
propagating out of the handler before any filesystem mutation. -/
inductive HandlerErr where
  | typeError
  | unsupportedConversationKind
deriving DecidableEq

/-- `message.guild and message.guild.id in IGNORE_SERVERS`. -/
def guildIgnored (cfg : Config) (m : Message) : Bool :=
  match m.channel.guildOf with
  | some g => cfg.ignoreServers.contains g.id
  | none => false

/-- `handle_message` from `run.py`: drop ignored-guild messages, then
route, format and append.  When `make_filename` returns `None`,
`write(None, string)` raises `TypeError` inside `os.path.dirname` before
any file is touched. -/
def handle_message (cfg : Config) (m : Message) (fs : FS) :
    Except HandlerErr FS :=
  if guildIgnored cfg m then .ok fs
  else
    match make_filename cfg m with
    | none => .error .typeError
    | some filename => .ok (write cfg filename (make_message cfg m) fs)

/-- The first registered `on_message_edit` listener (line 185): its body
is `pass`. -/
def on_message_edit_v1 (cfg : Config) (before after : Message) (fs : FS) :
    Except HandlerErr FS :=
  .ok fs

/-- The second registered `on_message_edit` listener (line 204): it logs
the post-edit state. -/
def on_message_edit_v2 (cfg : Config) (before after : Message) (fs : FS) :
    Except HandlerErr FS :=
  handle_message cfg after fs

/-- Delivering one direct edit event runs both registered
`on_message_edit` listeners in registration order. -/
def deliverDirectEdit (cfg : Config) (before after : Message) (fs : FS) :
    Except HandlerErr FS :=
  (on_message_edit_v1 cfg before after fs).bind
    (on_message_edit_v2 cfg before after)

/-- The payload of a raw edit notification: the edited message's id and
its channel id. -/
structure RawPayload where
  message_id : Nat
  channel_id : Nat

/-- `on_raw_message_edit` from `run.py`.  `cache` is
`bot._connection._get_message`, `getChannel` is `bot.get_channel`, and
`fetch` is `await channel.get_message` (the fresh platform fetch).  When
the message is cached the whole body is skipped; otherwise the channel is
resolved (silently dropping on failure or on an ignored guild), the
message fetched (silently dropping on failure) and handled. -/
def on_raw_message_edit (cfg : Config) (cache : Nat → Option Message)
    (getChannel : Nat → Option Channel) (fetch : Nat → Option Message)
    (payload : RawPayload) (fs : FS) : Except HandlerErr FS :=
  match cache payload.message_id with
  | some _ => .ok fs
  | none =>
      match getChannel payload.channel_id with
      | none => .ok fs
      | some channel =>
          if (match channel.guildOf with
              | some g => cfg.ignoreServers.contains g.id
              | none => false) then .ok fs
          else
            match fetch payload.message_id with
            | none => .ok fs
            | some m => handle_message cfg m fs

/-- The idtag inside the brackets: `E:` exactly when the event carries an
edit timestamp, then the fixed-width base64 token of the id. -/
def idtagOf (m : Message) : String :=
  (if m.edited_at.isSome then "E:" else "") ++
    String.mk (b64encodeList (toBytesLE 8 m.id))

/-- The effective instant the formatter displays: edit time when present,
else creation time, localtime-converted when the policy says so. -/
def effectiveTime (cfg : Config) (m : Message) : DateTime :=
  let t := match m.edited_at with
    | some e => e
    | none => m.created_at
  if cfg.useLocaltime then cfg.toLocal t else t

/-- The content segment as the spec words it: every literal newline of
the clean content is replaced by a newline followed by the marker
`(newline) `; every other character is untouched. -/
def contentSegOf (m : Message) : String :=
  String.mk (m.clean_content.data.flatMap
    (fun c => if c = '\n' then '\n' :: "(newline) ".data else [c]))

/-- The attachment segment as the spec words it: one `\n(attach) <url>`
per attachment, concatenated in the event's order. -/
def attachSegOf (m : Message) : String :=
  String.join (m.attachments.map (fun a => "\n(attach) " ++ a.url))

/-! ### Concrete environments and events used by witnesses and counterexamples -/

/-- A baseline configuration: log root `logs`, UTC timestamps, empty
ignore list, identity localtime conversion, wall clock 2023-05-01
10:00:00, no daylight-saving flag. -/
def cfgW : Config :=
  ⟨"logs", false, fun t => t, [], ⟨2023, 5, 1, 10, 0, 0⟩,
    ⟨2023, 5, 1, 10, 0, 0⟩, false⟩

/-- `cfgW` with guild id 1 on the ignore list. -/
def cfgIgnore1 : Config :=
  { cfgW with ignoreServers := [1] }

/-- `cfgW` with user id 7 on the ignore list (no guild has this id). -/
def cfgIgnore7 : Config :=
  { cfgW with ignoreServers := [7] }

/-- A concrete localtime conversion: UTC+2, rolling over midnight into
the next calendar day. -/
def utcPlus2 (t : DateTime) : DateTime :=
  if t.hour + 2 < 24 then ⟨t.year, t.month, t.day, t.hour + 2, t.minute, t.second⟩
  else ⟨t.year, t.month, t.day + 1, t.hour + 2 - 24, t.minute, t.second⟩

/-- A configuration with `USE_LOCALTIME` set and a UTC+2 local zone. -/
def cfgLocal2 : Config :=
  ⟨"logs", true, utcPlus2, [], ⟨2023, 5, 2, 1, 30, 0⟩,
    ⟨2023, 5, 1, 23, 30, 0⟩, false⟩

/-- The end-to-end scenario message of §8 of the spec: guild `Test Guild`
(id 1), channel `general` (id 2), author `alice#0001`, created
2023-05-01T10:00:00Z, not edited, no attachments. -/
def mGuild : Message :=
  ⟨1234567890123456789, ⟨2023, 5, 1, 10, 0, 0⟩, none, ⟨"alice", "0001", 7⟩,
    .text ⟨"Test Guild", 1⟩ "general" 2, "hello world", []⟩

/-- A multi-line, twice-attached variant of `mGuild`. -/
def mAttach : Message :=
  ⟨1234567890123456789, ⟨2023, 5, 1, 10, 0, 0⟩, none, ⟨"alice", "0001", 7⟩,
    .text ⟨"Test Guild", 1⟩ "general" 2, "line1\nline2",
    [⟨"http://x/a.png"⟩, ⟨"http://x/b.png"⟩]⟩

/-- `mGuild` after a platform edit at 11:00:00. -/
def mGuildEdit : Message :=
  { mGuild with edited_at := some ⟨2023, 5, 1, 11, 0, 0⟩ }

/-- A direct message from `bob` (id 7) sent at 23:30:00 UTC, so that a
UTC+2 local clock is already on the next calendar day. -/
def mDMLate : Message :=
  ⟨5, ⟨2023, 5, 1, 23, 30, 0⟩, none, ⟨"bob", "", 7⟩, .dm 42, "hi", []⟩

/-- A message in a channel kind matched by no branch of
`make_filename`. -/
def mOther : Message :=
  ⟨5, ⟨2023, 5, 1, 23, 30, 0⟩, none, ⟨"bob", "", 7⟩, .other 9, "hi", []⟩

/-- A message cache holding exactly `mGuildEdit`. -/
def cacheW : Nat → Option Message :=
  fun n => if n = mGuildEdit.id then some mGuildEdit else none

/-- An empty message cache. -/
def cacheNone : Nat → Option Message := fun _ => none

/-- A channel lookup that never resolves. -/
def chanNone : Nat → Option Channel := fun _ => none

/-- A channel lookup resolving id 2 to the `Test Guild` channel. -/
def chanW : Nat → Option Channel :=
  fun n => if n = 2 then some (.text ⟨"Test Guild", 1⟩ "general" 2) else none

/-- A platform fetch that never finds the message. -/
def fetchNone : Nat → Option Message := fun _ => none

end Panopticon

/-! ## Helper lemmas -/

namespace Panopticon

/-- Decoding inverts the alphabet map on every six-bit value. -/
theorem decodeChar_encodeSextet : ∀ n < 64, decodeChar (encodeSextet n) = some n := by
  decide

/-- The padding character is not in the alphabet. -/
theorem decodeChar_pad : decodeChar ('=') = none := by
  decide

/-- Base64 decoding inverts base64 encoding on any eight-byte group. -/
theorem decode_encode_eight (b0 b1 b2 b3 b4 b5 b6 b7 : Nat)
    (h0 : b0 < 256) (h1 : b1 < 256) (h2 : b2 < 256) (h3 : b3 < 256)
    (h4 : b4 < 256) (h5 : b5 < 256) (h6 : b6 < 256) (h7 : b7 < 256) :
    b64decodeList (b64encodeList [b0, b1, b2, b3, b4, b5, b6, b7]) =
      some [b0, b1, b2, b3, b4, b5, b6, b7] := by
  have e1 := decodeChar_encodeSextet (b0 / 4) (by omega)
  have e2 := decodeChar_encodeSextet (b0 % 4 * 16 + b1 / 16) (by omega)
  have e3 := decodeChar_encodeSextet (b1 % 16 * 4 + b2 / 64) (by omega)
  have e4 := decodeChar_encodeSextet (b2 % 64) (by omega)
  have e5 := decodeChar_encodeSextet (b3 / 4) (by omega)
  have e6 := decodeChar_encodeSextet (b3 % 4 * 16 + b4 / 16) (by omega)
  have e7 := decodeChar_encodeSextet (b4 % 16 * 4 + b5 / 64) (by omega)
  have e8 := decodeChar_encodeSextet (b5 % 64) (by omega)
  have e9 := decodeChar_encodeSextet (b6 / 4) (by omega)
  have e10 := decodeChar_encodeSextet (b6 % 4 * 16 + b7 / 16) (by omega)
  have e11 := decodeChar_encodeSextet (b7 % 16 * 4) (by omega)
  simp only [b64encodeList]
  rw [b64decodeList.eq_2 _ _ _ _ _ _ _ _ _ e1 e2 e3 e4,
    b64decodeList.eq_2 _ _ _ _ _ _ _ _ _ e5 e6 e7 e8,
    b64decodeList.eq_3 _ _ _ _ _ _ _ e9 e10 e11 decodeChar_pad]
  show some _ = some _
  refine congrArg some ?_
  simp only [List.cons.injEq, and_true]
  omega

/-- The eight little-endian bytes of a message id, written out. -/
theorem toBytesLE_eight (n : Nat) :
    toBytesLE 8 n = [n % 256, n / 256 % 256, n / 256 / 256 % 256,
      n / 256 / 256 / 256 % 256, n / 256 / 256 / 256 / 256 % 256,
      n / 256 / 256 / 256 / 256 / 256 % 256,
      n / 256 / 256 / 256 / 256 / 256 / 256 % 256,
      n / 256 / 256 / 256 / 256 / 256 / 256 / 256 % 256] := rfl

/-- The formatter's newline substitution is the per-character expansion
of the spec: each newline is followed by the marker, all else is kept. -/
theorem replaceNl_eq_flatMap (l : List Char) :
    replaceNl l = l.flatMap
      (fun c => if c = '\n' then '\n' :: "(newline) ".data else [c]) := by
  induction l with
  | nil => rfl
  | cons c rest ih =>
      simp only [replaceNl, List.flatMap_cons, ih]
      by_cases hc : c = '\n'
      · simp [hc]
      · simp [hc]

/-- The formatter's attachment fold is the concatenation, in order, of
one `\n(attach) <url>` piece per attachment. -/
theorem attach_foldl_eq_join (l : List Attachment) (acc : String) :
    l.foldl (fun acc a => acc ++ "\n(attach) " ++ a.url) acc =
      acc ++ String.join (l.map (fun a => "\n(attach) " ++ a.url)) := by
  induction l generalizing acc with
  | nil =>
      refine String.ext ?_
      simp [String.data_append, String.data_join]
  | cons a rest ih =>
      simp only [List.foldl_cons, ih, List.map_cons]
      refine String.ext ?_
      simp [String.data_append, String.data_join, List.append_assoc]

/-- No base64 token character is a colon, whatever the index. -/
theorem encodeSextet_ne_colon (n : Nat) : encodeSextet n ≠ ':' := by
  rcases Nat.lt_or_ge n 64 with h | h
  · revert h
    revert n
    decide
  · unfold encodeSextet
    rw [List.getD_eq_default]
    · decide
    · exact le_trans (by decide) h

end Panopticon

/-! ## Claims -/

namespace Panopticon

/-- C1: for every message event, the formatted log line is exactly
`[<idtag>] [<HH:MM:SS>] <author#discriminator> <content> <attachment-lines>`,
where the idtag begins with `E:` iff the event carries an edit timestamp,
every literal newline of the clean content is replaced by a newline
followed by the 10-character marker `(newline) `, the attachment segment
is one `\n(attach) <url>` per attachment in the event's order, and is
empty when there are no attachments. -/
theorem c1_make_message (cfg : Config) (m : Message) :
    make_message cfg m =
      "[" ++ idtagOf m ++ "] [" ++ fmtClock (effectiveTime cfg m) ++ "] <" ++
        m.author.name ++ "#" ++ m.author.discriminator ++ "> " ++
        contentSegOf m ++ " " ++ attachSegOf m ∧
    ((idtagOf m).data.take 2 = ['E', ':'] ↔ m.edited_at.isSome = true) ∧
    (m.attachments = [] → attachSegOf m = "") ∧
    "(newline) ".length = 10 := by
  refine ⟨?_, ?_, ?_, rfl⟩
  · unfold make_message idtagOf effectiveTime contentSegOf attachSegOf
    rw [attach_foldl_eq_join]
    cases m.edited_at <;>
      · refine String.ext ?_
        simp [String.data_append, String.data_join, replaceNl_eq_flatMap,
          List.append_assoc]
  · cases he : m.edited_at with
    | some e =>
        unfold idtagOf
        rw [he]
        simp
    | none =>
        unfold idtagOf
        rw [he, toBytesLE_eight]
        simp only [Option.isSome_none, b64encodeList]
        constructor
        · intro h
          have h2 : encodeSextet (m.id % 256 % 4 * 16 + m.id / 256 % 256 / 16) = ':' := by
            have := congrArg (fun l => l.get? 1) h
            simpa using this
          exact absurd h2 (encodeSextet_ne_colon _)
        · intro h
          cases h
  · intro h
    unfold attachSegOf
    rw [h]
    rfl

/-- C1 witness: the formatter evaluated on a concrete multi-line,
twice-attached, unedited guild message. -/
theorem c1_make_message_witness :
    make_message cfgW mAttach =
      "[FYHpffQQIhE=] [10:00:00] <alice#0001> line1\n(newline) line2 \n(attach) http://x/a.png\n(attach) http://x/b.png" ∧
    (mAttach.attachments = [] → attachSegOf mAttach = "") :=
  ⟨(c1_make_message cfgW mAttach).1, (c1_make_message cfgW mAttach).2.2.1⟩

end Panopticon
namespace Panopticon

/-- C2 counterexample: with `USE_LOCALTIME` set and a UTC+2 local zone, a
DM created 2023-05-01T23:30:00Z is routed by the code to the
`2023-05-01.log` file (raw stored date), while the claim's
policy-adjusted date is 2023-05-02: `make_filename` does not apply the
localtime policy the claim asserts. -/
theorem c2_localtime_counterexample :
    make_filename cfgLocal2 mDMLate = some "logs/DM/bob-7/2023-05-01.log" ∧
    make_filename_specpolicy cfgLocal2 mDMLate = some "logs/DM/bob-7/2023-05-02.log" ∧
    make_filename cfgLocal2 mDMLate ≠ make_filename_specpolicy cfgLocal2 mDMLate := by
  refine ⟨rfl, rfl, ?_⟩
  decide

/-- C2 as amended: the routed path uses the effective date (edit
timestamp if present, else creation timestamp) formatted `YYYY-MM-DD`
directly from the stored timestamp — the localtime policy is never
applied to routing — and the three conversation variants produce
`<log_root>/<guild>-<gid>/#<chan>-<cid>/<date>.log`,
`<log_root>/DM/<author>-<aid>/<date>.log` and
`<log_root>/DM/<group>-<gid>/<date>.log` with sanitized names. -/
theorem c2_routing_amended (cfg : Config) (m : Message) :
    (∀ b f, make_filename { cfg with useLocaltime := b, toLocal := f } m =
      make_filename cfg m) ∧
    (∀ g cn ci, m.channel = .text g cn ci →
      make_filename cfg m = some (cfg.logDir ++ "/" ++ clean_filename g.name ++
        "-" ++ toString g.id ++ "/#" ++ clean_filename cn ++ "-" ++ toString ci ++
        "/" ++ fmtDateF (m.edited_at.getD m.created_at) ++ ".log")) ∧
    (∀ i, m.channel = .dm i →
      make_filename cfg m = some (cfg.logDir ++ "/DM/" ++
        clean_filename m.author.name ++ "-" ++ toString m.author.id ++
        "/" ++ fmtDateF (m.edited_at.getD m.created_at) ++ ".log")) ∧
    (∀ n i, m.channel = .group n i →
      make_filename cfg m = some (cfg.logDir ++ "/DM/" ++
        clean_filename n ++ "-" ++ toString i ++
        "/" ++ fmtDateF (m.edited_at.getD m.created_at) ++ ".log")) := by
  refine ⟨fun b f => rfl, ?_, ?_, ?_⟩
  · intro g cn ci h
    cases he : m.edited_at <;> simp [make_filename, h, he, Option.getD]
  · intro i h
    cases he : m.edited_at <;> simp [make_filename, h, he, Option.getD]
  · intro n i h
    cases he : m.edited_at <;> simp [make_filename, h, he, Option.getD]

/-- C2 witness: the §8 end-to-end guild scenario routes to
`logs/Test Guild-1/#general-2/2023-05-01.log`. -/
theorem c2_routing_witness :
    make_filename cfgW mGuild = some "logs/Test Guild-1/#general-2/2023-05-01.log" :=
  (c2_routing_amended cfgW mGuild).2.1 ⟨"Test Guild", 1⟩ "general" 2 rfl

end Panopticon
namespace Panopticon

/-- C3, evaluated at the failing input (wall clock 2023-05-01, no
daylight flag): the writer's first append to a fresh path writes exactly
one session marker followed by the data line, and a second append adds
only the data line — but the marker's date renders through
`strftime('%Y-%m-%D')` as `2023-05-05/01/23`, not the `YYYY-MM-DD` form
`2023-05-01` the claim (and the code's evident intent) states. -/
theorem c3_session_line_eval :
    write cfgW "logs/a/b.log" "L1" emptyFS "logs/a/b.log" =
      some "Session start: 2023-05-05/01/23 10:00\nL1\n" ∧
    write cfgW "logs/a/b.log" "L2" (write cfgW "logs/a/b.log" "L1" emptyFS)
        "logs/a/b.log" =
      some "Session start: 2023-05-05/01/23 10:00\nL1\nL2\n" ∧
    sessionLine cfgW ≠ "Session start: 2023-05-01 10:00\n" := by
  refine ⟨rfl, rfl, ?_⟩
  decide

end Panopticon
namespace Panopticon

/-- C4 counterexample: for a message in an unsupported channel kind the
handler fails with the `TypeError` of `os.path.dirname(None)` — there is
no explicit `UnsupportedConversationKind` error anywhere in the code, so
the claim's named error is never produced. -/
theorem c4_unsupported_counterexample :
    handle_message cfgW mOther emptyFS = .error .typeError ∧
    handle_message cfgW mOther emptyFS ≠ .error .unsupportedConversationKind := by
  refine ⟨rfl, fun h => ?_⟩
  have h0 : handle_message cfgW mOther emptyFS = .error .typeError := rfl
  rw [h0] at h
  exact HandlerErr.noConfusion (Except.error.inj h)

/-- C4 as amended: for every message event whose conversation is not one
of the three supported variants, `make_filename` silently returns no path
(its `if`/`elif` chain has no `else`), and the subsequent
`write(None, ...)` call fails with a `TypeError` before touching any
file — an unnamed crash, not an `UnsupportedConversationKind` error; no
file write is performed for that event. -/
theorem c4_unsupported_amended (cfg : Config) (m : Message) (fs : FS) (i : Nat)
    (h : m.channel = .other i) :
    make_filename cfg m = none ∧
    handle_message cfg m fs = .error .typeError ∧
    handle_message cfg m fs ≠ .error .unsupportedConversationKind := by
  have hfn : make_filename cfg m = none := by
    cases he : m.edited_at <;> simp [make_filename, h, he]
  have hig : guildIgnored cfg m = false := by
    simp [guildIgnored, h, Channel.guildOf]
  refine ⟨hfn, ?_, ?_⟩
  · simp [handle_message, hig, hfn]
  · simp [handle_message, hig, hfn]

/-- C4 witness: the amended statement evaluated on a concrete message in
an unrecognized channel kind. -/
theorem c4_unsupported_witness :
    make_filename cfgW mOther = none ∧
    handle_message cfgW mOther emptyFS = .error .typeError ∧
    handle_message cfgW mOther emptyFS ≠ .error .unsupportedConversationKind :=
  c4_unsupported_amended cfgW mOther emptyFS 9 rfl

end Panopticon
namespace Panopticon

/-- C5: a logical edit reachable through both edit-event forms is logged
exactly once.  When the edited message is in the client cache — the only
situation in which the platform fires the direct `on_message_edit` form —
the raw handler's first lookup succeeds and its body does nothing, so
delivering the raw event and the direct event (in either order) has the
effect of exactly one `handle_message` call; and one unignored, routable
`handle_message` call appends exactly one formatted line via one `write`
call. -/
theorem c5_edit_dedup (cfg : Config) (cache : Nat → Option Message)
    (getChannel : Nat → Option Channel) (fetch : Nat → Option Message)
    (pid cid : Nat) (m before : Message) (fs : FS)
    (hcache : cache pid = some m) :
    (on_raw_message_edit cfg cache getChannel fetch ⟨pid, cid⟩ fs).bind
      (deliverDirectEdit cfg before m) = handle_message cfg m fs ∧
    (deliverDirectEdit cfg before m fs).bind
      (on_raw_message_edit cfg cache getChannel fetch ⟨pid, cid⟩) =
      handle_message cfg m fs ∧
    (∀ f, make_filename cfg m = some f → guildIgnored cfg m = false →
      handle_message cfg m fs = .ok (write cfg f (make_message cfg m) fs)) := by
  have hraw : ∀ fs0 : FS,
      on_raw_message_edit cfg cache getChannel fetch ⟨pid, cid⟩ fs0 = .ok fs0 := by
    intro fs0
    simp [on_raw_message_edit, hcache]
  refine ⟨?_, ?_, ?_⟩
  · rw [hraw fs]
    rfl
  · have hdel : deliverDirectEdit cfg before m fs = handle_message cfg m fs := rfl
    rw [hdel]
    cases h : handle_message cfg m fs with
    | ok fs1 =>
        show on_raw_message_edit cfg cache getChannel fetch ⟨pid, cid⟩ fs1 = _
        rw [hraw fs1]
    | error e => rfl
  · intro f hf hig
    simp [handle_message, hig, hf]

/-- C5 witness: both edit forms delivered for the cached edited guild
message produce the single-call effect. -/
theorem c5_edit_dedup_witness :
    (on_raw_message_edit cfgW cacheW chanW fetchNone ⟨1234567890123456789, 2⟩
        emptyFS).bind (deliverDirectEdit cfgW mGuild mGuildEdit) =
      handle_message cfgW mGuildEdit emptyFS ∧
    handle_message cfgW mGuildEdit emptyFS =
      .ok (write cfgW "logs/Test Guild-1/#general-2/2023-05-01.log"
        (make_message cfgW mGuildEdit) emptyFS) :=
  ⟨(c5_edit_dedup cfgW cacheW chanW fetchNone 1234567890123456789 2 mGuildEdit
      mGuild emptyFS rfl).1,
   (c5_edit_dedup cfgW cacheW chanW fetchNone 1234567890123456789 2 mGuildEdit
      mGuild emptyFS rfl).2.2 "logs/Test Guild-1/#general-2/2023-05-01.log"
      rfl rfl⟩

end Panopticon
namespace Panopticon

/-- C6: for every valid 64-bit message id, base64-decoding the idtag
token back to 8 little-endian bytes and reading them as an integer
yields the original id, and the token has fixed width 12. -/
theorem c6_idtag_roundtrip (id : Nat) (h : id < 2 ^ 64) :
    (b64decodeList (b64encodeList (toBytesLE 8 id))).map fromBytesLE = some id ∧
      (b64encodeList (toBytesLE 8 id)).length = 12 := by
  rw [toBytesLE_eight]
  constructor
  · rw [decode_encode_eight _ _ _ _ _ _ _ _
      (Nat.mod_lt _ (by omega)) (Nat.mod_lt _ (by omega)) (Nat.mod_lt _ (by omega))
      (Nat.mod_lt _ (by omega)) (Nat.mod_lt _ (by omega)) (Nat.mod_lt _ (by omega))
      (Nat.mod_lt _ (by omega)) (Nat.mod_lt _ (by omega))]
    show some _ = some _
    refine congrArg some ?_
    simp only [fromBytesLE]
    omega
  · simp only [b64encodeList, List.length_cons, List.length_nil]

/-- C6 witness: the round trip evaluated at the §8 scenario id. -/
theorem c6_idtag_roundtrip_witness :
    (b64decodeList (b64encodeList (toBytesLE 8 1234567890123456789))).map
        fromBytesLE = some 1234567890123456789 ∧
      (b64encodeList (toBytesLE 8 1234567890123456789)).length = 12 :=
  c6_idtag_roundtrip 1234567890123456789 (by decide)

/-- C7: the sanitizer removes exactly the characters of the forbidden
set (the nine reserved punctuation marks and ASCII `0x00`–`0x1f`) and
nothing else (character counts of all other characters are preserved),
its output never contains a forbidden character, and it is idempotent;
it is a total function with no error case. -/
theorem c7_clean_filename (s : String) :
    clean_filename (clean_filename s) = clean_filename s ∧
      (∀ c ∈ (clean_filename s).data, isForbiddenChar c = false) ∧
      (∀ c : Char, (clean_filename s).data.count c =
        if isForbiddenChar c then 0 else s.data.count c) := by
  refine ⟨?_, ?_, ?_⟩
  · show String.mk (List.filter _ (List.filter _ s.data)) = _
    rw [List.filter_filter]
    congr 1
    refine List.filter_congr ?_
    intro c hc
    cases isForbiddenChar c <;> rfl
  · intro c hc
    have := (List.mem_filter.mp hc).2
    cases hcf : isForbiddenChar c
    · rfl
    · rw [hcf] at this
      simp at this
  · intro c
    show (List.filter _ s.data).count c = _
    cases hcf : isForbiddenChar c
    · rw [if_neg (by simp [hcf])]
      refine List.count_filter ?_
      simp [hcf]
    · rw [if_pos rfl]
      refine List.count_eq_zero.mpr ?_
      intro hmem
      have := (List.mem_filter.mp hmem).2
      rw [hcf] at this
      simp at this

/-- C7 witness: the sanitizer evaluated on a string containing every
reserved punctuation character, a control character and ordinary text. -/
theorem c7_clean_filename_witness :
    clean_filename (clean_filename "a/b\\c:d*e?f\"g<h>i|j\x01k") =
      clean_filename "a/b\\c:d*e?f\"g<h>i|j\x01k" ∧
    (clean_filename "a/b\\c:d*e?f\"g<h>i|j\x01k").data.count '/' = 0 :=
  ⟨(c7_clean_filename "a/b\\c:d*e?f\"g<h>i|j\x01k").1,
   by
    rw [(c7_clean_filename "a/b\\c:d*e?f\"g<h>i|j\x01k").2.2 '/']
    rfl⟩

end Panopticon
namespace Panopticon

/-- C8: a raw edit event for an uncached message whose channel cannot be
resolved, or whose message cannot be fetched fresh from the platform, is
dropped silently: the handler returns without error and the filesystem is
untouched. -/
theorem c8_raw_edit_silent_drop (cfg : Config) (cache : Nat → Option Message)
    (getChannel : Nat → Option Channel) (fetch : Nat → Option Message)
    (pid cid : Nat) (fs : FS)
    (hcache : cache pid = none)
    (h : getChannel cid = none ∨ fetch pid = none) :
    on_raw_message_edit cfg cache getChannel fetch ⟨pid, cid⟩ fs = .ok fs := by
  unfold on_raw_message_edit
  rw [hcache]
  rcases h with hch | hfe
  · rw [hch]
  · cases hch : getChannel cid with
    | none => rfl
    | some channel =>
        cases hg : channel.guildOf with
        | none => simp [hfe]
        | some g =>
            cases hmem : cfg.ignoreServers.contains g.id <;> simp [hg, hmem, hfe]

/-- C8 witness: an unresolvable raw edit (empty cache, unresolvable
channel, failing fetch) leaves the empty filesystem unchanged without
error. -/
theorem c8_raw_edit_silent_drop_witness :
    on_raw_message_edit cfgW cacheNone chanNone fetchNone ⟨5, 9⟩ emptyFS =
      .ok emptyFS :=
  c8_raw_edit_silent_drop cfgW cacheNone chanNone fetchNone 5 9 emptyFS rfl
    (Or.inl rfl)

/-- C9: an event whose conversation belongs to a guild on the ignore
list produces zero file writes and zero side effects: `handle_message`
returns the filesystem unchanged, and the raw-edit path's own ignore
check drops the event before fetching. -/
theorem c9_ignored_guild_drop (cfg : Config) (m : Message) (fs : FS) (g : Guild)
    (hg : m.channel.guildOf = some g)
    (hmem : cfg.ignoreServers.contains g.id = true) :
    handle_message cfg m fs = .ok fs ∧
    (∀ (cache : Nat → Option Message) (getChannel : Nat → Option Channel)
        (fetch : Nat → Option Message) (pid cid : Nat) (ch : Channel),
      cache pid = none → getChannel cid = some ch → ch.guildOf = some g →
      on_raw_message_edit cfg cache getChannel fetch ⟨pid, cid⟩ fs = .ok fs) := by
  constructor
  · have hig : guildIgnored cfg m = true := by
      unfold guildIgnored
      rw [hg]
      exact hmem
    simp [handle_message, hig]
  · intro cache getChannel fetch pid cid ch hcache hch hchg
    unfold on_raw_message_edit
    rw [hcache, hch]
    simp only [hchg, hmem, if_true]

/-- C9 witness: with guild id 1 ignored, the §8 guild message is dropped
with no filesystem effect. -/
theorem c9_ignored_guild_drop_witness :
    handle_message cfgIgnore1 mGuild emptyFS = .ok emptyFS :=
  (c9_ignored_guild_drop cfgIgnore1 mGuild emptyFS ⟨"Test Guild", 1⟩ rfl rfl).1

/-- C10: a message event with no guild (direct messages and group
messages) is never suppressed by the ignore filter: whatever the ignore
list holds, the event is routed (the router always yields a path for
these kinds), formatted, and appended through exactly one `write` call. -/
theorem c10_no_guild_never_ignored (cfg : Config) (m : Message) (fs : FS)
    (h : (∃ i, m.channel = Channel.dm i) ∨ ∃ n i, m.channel = Channel.group n i) :
    (make_filename cfg m).isSome = true ∧
    (∀ ig, handle_message { cfg with ignoreServers := ig } m fs =
      handle_message cfg m fs) ∧
    handle_message cfg m fs =
      .ok (write cfg ((make_filename cfg m).getD "") (make_message cfg m) fs) := by
  have hgo : m.channel.guildOf = none := by
    rcases h with ⟨i, hch⟩ | ⟨n, i, hch⟩ <;> rw [hch] <;> rfl
  have hig : ∀ cfg0 : Config, guildIgnored cfg0 m = false := by
    intro cfg0
    simp [guildIgnored, hgo]
  have hfn : ∀ cfg0 : Config, cfg0.logDir = cfg.logDir →
      make_filename cfg0 m = make_filename cfg m := by
    intro cfg0 hld
    unfold make_filename
    rw [hld]
  rcases h with ⟨i, hch⟩ | ⟨n, i, hch⟩
  · have hsome : (make_filename cfg m).isSome = true := by
      cases he : m.edited_at <;> simp [make_filename, hch, he]
    refine ⟨hsome, ?_, ?_⟩
    · intro ig
      unfold handle_message
      rw [hig { cfg with ignoreServers := ig }, hig cfg, hfn _ rfl]
      rfl
    · unfold handle_message
      rw [hig cfg]
      cases hf : make_filename cfg m with
      | none => rw [hf] at hsome; cases hsome
      | some p => simp [hf]
  · have hsome : (make_filename cfg m).isSome = true := by
      cases he : m.edited_at <;> simp [make_filename, hch, he]
    refine ⟨hsome, ?_, ?_⟩
    · intro ig
      unfold handle_message
      rw [hig { cfg with ignoreServers := ig }, hig cfg, hfn _ rfl]
      rfl
    · unfold handle_message
      rw [hig cfg]
      cases hf : make_filename cfg m with
      | none => rw [hf] at hsome; cases hsome
      | some p => simp [hf]

/-- C10 witness: a DM from user id 7 is appended even when id 7 is on
the ignore list. -/
theorem c10_no_guild_never_ignored_witness :
    handle_message cfgIgnore7 mDMLate emptyFS =
      handle_message cfgW mDMLate emptyFS ∧
    (make_filename cfgW mDMLate).isSome = true :=
  ⟨(c10_no_guild_never_ignored cfgW mDMLate emptyFS (Or.inl ⟨42, rfl⟩)).2.1 [7],
   (c10_no_guild_never_ignored cfgW mDMLate emptyFS (Or.inl ⟨42, rfl⟩)).1⟩

end Panopticon
